import Mathlib

/-!
Verification development for the airweave repository excerpt.

Part 1 models the sync-test MCP server
(`src/.cursor/mcp/sync_test/src/mcp_server_sync_test/server.py`): the helper
functions `check_connection_status` and `run_sync_for_source`, and the two
tools `check_connection` and `run_sync`.

Part 2 models the MDX documentation generator
(`src/fern/scripts/update_connector_docs/generators/mdx_generator.py`):
`escape_mdx_special_chars` and `generate_mdx_content`.

HTTP traffic is modelled by an environment mapping each request attempt to
its outcome; wall-clock time is modelled by the number of whole seconds each
request consumes, supplied by the environment.  Python result dictionaries
are modelled as association lists from string keys to Python values.
-/

/-- Python values appearing in the result dictionaries of the sync-test
server: strings, booleans, integers, `None`, and (for the `"data"` key) the
payload of `response.json()`, which is carried through unchanged and can be
any value. -/
inductive PyVal where
  | str : String → PyVal
  | bool : Bool → PyVal
  | nat : Nat → PyVal
  | none : PyVal
  deriving DecidableEq, Repr

/-- A Python dictionary with string keys, as returned by the server's
functions (insertion order preserved, looked up by key). -/
abbrev PyDict := List (String × PyVal)

/-- Python truthiness for the modelled values (`if result["connection_found"]`,
`if auth_type:` etc.): empty string, `False`, `0` and `None` are falsy. -/
def truthy : PyVal → Bool
  | .str s => s != ""
  | .bool b => b
  | .nat n => n != 0
  | .none => false

/-- The JSON body of a 500 response, read by
`error_data = e.response.json()` in `run_sync_for_source`:
`error_data.get("detail", ...)` and `error_data.get("stacktrace")` are the
only keys accessed, so the body is modelled by those two optional fields. -/
structure ErrorBody where
  detail : Option String
  stacktrace : Option String
  deriving DecidableEq, Repr

/-- Outcome of one HTTP request attempt made through the `httpx` client:
`ok data` is a 2xx response whose `response.json()` is `data`
(`raise_for_status()` does not raise); `statusError code estr body` is an
`httpx.HTTPStatusError` with `e.response.status_code = code`,
`str(e) = estr`, and `e.response.json()` either parsing to `body`
(`Except.ok`) or itself raising an exception whose `str` is carried
(`Except.error`); `exn estr` is any other exception with `str(e) = estr`
(connection errors, JSON decode errors on a 2xx body, ...). -/
inductive HttpOutcome where
  | ok : PyVal → HttpOutcome
  | statusError : Nat → String → Except String ErrorBody → HttpOutcome
  | exn : String → HttpOutcome

/-- `CONNECTION_CHECK_TIMEOUT = 300` (seconds) from server.py. -/
def CONNECTION_CHECK_TIMEOUT : Nat := 300

/-- `CONNECTION_CHECK_INTERVAL = 5` (seconds) from server.py. -/
def CONNECTION_CHECK_INTERVAL : Nat := 5

/-- `MAX_RETRIES = 3` from server.py. -/
def MAX_RETRIES : Nat := 3

/-- `check_connection_status(short_name, backend_url)` from server.py,
applied to the outcome of its single GET request: a 2xx response yields the
success dictionary carrying the response data; an `HTTPStatusError` with
status 404 yields the pending dictionary; any other `HTTPStatusError` yields
the error dictionary carrying `str(e)` and the status code; any other
exception yields the generic error dictionary carrying `str(e)`. -/
def check_connection_status (short_name : String) (o : HttpOutcome) : PyDict :=
  match o with
  | .ok data =>
      [("status", .str "success"), ("connection_found", .bool true), ("data", data)]
  | .statusError code estr _ =>
      if code = 404 then
        [("status", .str "pending"), ("connection_found", .bool false),
         ("message", .str ("No connection found for source: " ++ short_name))]
      else
        [("status", .str "error"), ("connection_found", .bool false),
         ("error", .str estr), ("status_code", .nat code)]
  | .exn estr =>
      [("status", .str "error"), ("connection_found", .bool false), ("error", .str estr)]

/-- What one iteration of the retry loop in `run_sync_for_source` does after
its POST request: return a dictionary, let an exception escape to the outer
`except Exception` handler, or sleep and retry. -/
inductive SyncStep where
  | ret : PyDict → SyncStep
  | raiseExc : String → SyncStep
  | retry : SyncStep

/-- `error_data.get("stacktrace")`: a missing key yields Python `None`. -/
def optStrVal : Option String → PyVal
  | some s => .str s
  | Option.none => .none

/-- One iteration of the `for _ in range(MAX_RETRIES)` loop of
`run_sync_for_source`: a 2xx response returns the success dictionary; a 404
raises `HTTPException(status_code=404, detail=f"Source {short_name} not
found")`, whose `str` is `"404: <detail>"` (Starlette), escaping to the outer
handler; a 500 returns the error dictionary built from the response body (or,
if `e.response.json()` raises, that exception escapes); any other status
error and any other exception sleep 2 seconds and retry. -/
def syncAttemptStep (short_name : String) (o : HttpOutcome) : SyncStep :=
  match o with
  | .ok data => .ret [("status", .str "success"), ("data", data)]
  | .statusError code estr body =>
      if code = 404 then
        .raiseExc ("404: Source " ++ short_name ++ " not found")
      else if code = 500 then
        match body with
        | .ok b =>
            .ret [("status", .str "error"),
                  ("error", .str (b.detail.getD estr)),
                  ("stacktrace", optStrVal b.stacktrace),
                  ("status_code", .nat code)]
        | .error msg => .raiseExc msg
      else .retry
  | .exn _ => .retry

/-- The dictionary returned by `run_sync_for_source` when the retry loop is
exhausted. -/
def maxRetriesDict : PyDict :=
  [("status", .str "error"), ("error", .str "Max retries exceeded when trying to run sync")]

/-- The retry loop of `run_sync_for_source`: `env` gives the outcome of the
`i`-th POST attempt, `fuel` the remaining iterations of
`for _ in range(MAX_RETRIES)`.  Returns the loop's result (`Except.error`
when an exception escapes to the outer handler), the number of requests
issued, and the list of sleep durations performed (in seconds, in order). -/
def runSyncLoop (short_name : String) (env : Nat → HttpOutcome) (i : Nat) :
    Nat → Except String PyDict × Nat × List Nat
  | 0 => (.ok maxRetriesDict, 0, [])
  | fuel + 1 =>
      match syncAttemptStep short_name (env i) with
      | .ret d => (.ok d, 1, [])
      | .raiseExc msg => (.error msg, 1, [])
      | .retry =>
          match runSyncLoop short_name env (i + 1) fuel with
          | (res, n, sleeps) => (res, n + 1, 2 :: sleeps)

/-- `run_sync_for_source(short_name, backend_url)` from server.py: runs the
retry loop; an exception escaping the loop is caught by the outer
`except Exception as e` handler, which returns
`{"status": "error", "error": str(e), "stacktrace": traceback.format_exc()}`.
`tb` abstracts the string produced by `traceback.format_exc()`.  Returns the
dictionary together with the number of POST requests issued and the sleeps
performed. -/
def run_sync_for_source (short_name : String) (env : Nat → HttpOutcome) (tb : String) :
    PyDict × Nat × List Nat :=
  match runSyncLoop short_name env 0 MAX_RETRIES with
  | (.ok d, n, sleeps) => (d, n, sleeps)
  | (.error msg, n, sleeps) =>
      ([("status", .str "error"), ("error", .str msg), ("stacktrace", .str tb)], n, sleeps)

/-- The condition
`result["status"] == "success" and result["connection_found"]` on which both
`check_connection` and `run_sync` proceed. -/
def isSuccessFound (r : PyDict) : Bool :=
  (List.lookup "status" r == some (PyVal.str "success")) &&
  (match List.lookup "connection_found" r with
   | some v => truthy v
   | Option.none => false)

/-- The early-return condition of the polling loop of `check_connection`:
`result["status"] == "error"` and
`"status_code" in result and result["status_code"] != 404`. -/
def isErrorExit (r : PyDict) : Bool :=
  (List.lookup "status" r == some (PyVal.str "error")) &&
  (match List.lookup "status_code" r with
   | some v => !(v == PyVal.nat 404)
   | Option.none => false)

/-- The dictionary returned by `check_connection` when the timeout window
elapses. -/
def timeoutDict (short_name : String) : PyDict :=
  [("status", .str "timeout"), ("connection_found", .bool false),
   ("message", .str ("Timeout waiting for connection: " ++ short_name))]

/-- The polling loop of `check_connection`: `polls` gives the outcome of the
`i`-th GET request, `durs i` the whole seconds that request consumed, and
`elapsed` the value of `time.time() - start_time` at the loop test.  Each
non-exiting iteration advances `elapsed` by the request duration plus the
fixed 5-second sleep.  `fuel` bounds the iterations; since every iteration
advances `elapsed` by at least `CONNECTION_CHECK_INTERVAL`, any fuel with
`CONNECTION_CHECK_TIMEOUT ≤ elapsed + CONNECTION_CHECK_INTERVAL * fuel`
makes the fuel-exhaustion branch coincide with the timeout branch.  Returns
the result dictionary and the number of polls issued. -/
def checkConnLoop (short_name : String) (polls : Nat → HttpOutcome) (durs : Nat → Nat)
    (i elapsed : Nat) : Nat → PyDict × Nat
  | 0 => (timeoutDict short_name, 0)
  | fuel + 1 =>
      if elapsed < CONNECTION_CHECK_TIMEOUT then
        let r := check_connection_status short_name (polls i)
        if isSuccessFound r then (r, 1)
        else if isErrorExit r then (r, 1)
        else
          match checkConnLoop short_name polls durs (i + 1)
              (elapsed + durs i + CONNECTION_CHECK_INTERVAL) fuel with
          | (res, n) => (res, n + 1)
      else (timeoutDict short_name, 0)

/-- `check_connection(short_name, backend_url)` from server.py: polls the
status endpoint from elapsed time 0.  Fuel 60 suffices:
`300 ≤ 0 + 5 * 60`. -/
def check_connection (short_name : String) (polls : Nat → HttpOutcome)
    (durs : Nat → Nat) : PyDict × Nat :=
  checkConnLoop short_name polls durs 0 0 60

/-- The dictionary returned by `run_sync` when the initial connection check
does not succeed. -/
def noConnectionDict (short_name : String) : PyDict :=
  [("status", .str "error"),
   ("error", .str ("No connection found for source: " ++ short_name)),
   ("message", .str "Please ensure a connection is established before running a sync")]

/-- `run_sync(short_name, backend_url)` from server.py: performs one
connection check (outcome `connOutcome`); if
`connection_result["status"] != "success" or not
connection_result["connection_found"]` it returns the error dictionary,
otherwise it runs `run_sync_for_source` (POST outcomes `env`).  Returns the
dictionary and the number of sync-trigger POST requests issued. -/
def run_sync (short_name : String) (connOutcome : HttpOutcome)
    (env : Nat → HttpOutcome) (tb : String) : PyDict × Nat :=
  let connection_result := check_connection_status short_name connOutcome
  if !(List.lookup "status" connection_result == some (PyVal.str "success")) ||
     !(match List.lookup "connection_found" connection_result with
       | some v => truthy v
       | Option.none => false) then
    (noConnectionDict short_name, 0)
  else
    match run_sync_for_source short_name env tb with
    | (d, n, _) => (d, n)

/-- An attempt outcome on which the retry loop of `run_sync_for_source`
sleeps and retries: a status error other than 404 and 500, or any
non-status-error exception. -/
def retryable : HttpOutcome → Bool
  | .ok _ => false
  | .statusError code _ _ => !(code == 404) && !(code == 500)
  | .exn _ => true

lemma syncAttemptStep_retry (short_name : String) {o : HttpOutcome}
    (h : retryable o = true) : syncAttemptStep short_name o = .retry := by
  cases o with
  | ok data => simp [retryable] at h
  | statusError code estr body =>
      simp [retryable, Bool.and_eq_true] at h
      simp [syncAttemptStep, h.1, h.2]
  | exn estr => rfl

lemma runSyncLoop_attempts_le (short_name : String) (env : Nat → HttpOutcome) :
    ∀ fuel i, (runSyncLoop short_name env i fuel).2.1 ≤ fuel := by
  intro fuel
  induction fuel with
  | zero => intro i; simp [runSyncLoop]
  | succ fuel ih =>
      intro i
      simp only [runSyncLoop]
      cases syncAttemptStep short_name (env i) with
      | ret d => simp
      | raiseExc msg => simp
      | retry =>
          have := ih (i + 1)
          cases hrec : runSyncLoop short_name env (i + 1) fuel with
          | mk res rest =>
              simp [hrec] at this ⊢
              omega

lemma runSyncLoop_all_retry (short_name : String) (env : Nat → HttpOutcome) :
    ∀ fuel i, (∀ j, j < fuel → retryable (env (i + j)) = true) →
      runSyncLoop short_name env i fuel =
        (.ok maxRetriesDict, fuel, List.replicate fuel 2) := by
  intro fuel
  induction fuel with
  | zero => intro i _; simp [runSyncLoop]
  | succ fuel ih =>
      intro i h
      have h0 : syncAttemptStep short_name (env i) = .retry := by
        have := h 0 (Nat.succ_pos fuel)
        simpa using syncAttemptStep_retry short_name this
      have hrec := ih (i + 1) (fun j hj => by
        have := h (j + 1) (by omega)
        simpa [Nat.add_assoc, Nat.add_comm 1 j] using this)
      simp [runSyncLoop, h0, hrec, List.replicate_succ]

/-- C7: `run_sync_for_source` issues the sync-trigger request at most
`MAX_RETRIES = 3` times, and when every attempt fails with a retryable error
(a status error other than 404 and 500, or a connection-level exception) it
returns the dictionary with status "error" and error
"Max retries exceeded when trying to run sync". -/
theorem run_sync_for_source_retry_bound (short_name tb : String)
    (env : Nat → HttpOutcome) :
    (run_sync_for_source short_name env tb).2.1 ≤ MAX_RETRIES ∧
    ((∀ i, i < MAX_RETRIES → retryable (env i) = true) →
      run_sync_for_source short_name env tb =
        (maxRetriesDict, MAX_RETRIES, List.replicate MAX_RETRIES 2)) := by
  constructor
  · have hle := runSyncLoop_attempts_le short_name env MAX_RETRIES 0
    unfold run_sync_for_source
    cases hrec : runSyncLoop short_name env 0 MAX_RETRIES with
    | mk res rest =>
        cases res with
        | ok d => simpa [hrec] using by rw [hrec] at hle; simpa using hle
        | error msg => simpa [hrec] using by rw [hrec] at hle; simpa using hle
  · intro h
    have := runSyncLoop_all_retry short_name env MAX_RETRIES 0
      (fun j hj => by simpa using h j hj)
    simp [run_sync_for_source, this]

/-- Witness for C7 at a concrete environment where every attempt raises a
connection error. -/
theorem run_sync_for_source_retry_bound_witness :
    (run_sync_for_source "asana" (fun _ => HttpOutcome.exn "connection refused") "tb").2.1
        ≤ MAX_RETRIES ∧
    run_sync_for_source "asana" (fun _ => HttpOutcome.exn "connection refused") "tb" =
      (maxRetriesDict, MAX_RETRIES, List.replicate MAX_RETRIES 2) :=
  ⟨(run_sync_for_source_retry_bound "asana" "tb" (fun _ => HttpOutcome.exn "connection refused")).1,
   (run_sync_for_source_retry_bound "asana" "tb"
      (fun _ => HttpOutcome.exn "connection refused")).2 (fun _ _ => rfl)⟩

/-- A sync environment in which every attempt fails with HTTP 500 whose body
carries a detail and a stacktrace. -/
def allFiveHundred : Nat → HttpOutcome :=
  fun _ => .statusError 500 "Server error" (.ok ⟨some "boom", some "backend trace"⟩)

/-- C1 counterexample: when every attempt fails with HTTP 500 (a 5xx
status), `run_sync_for_source` does not retry at all: it issues exactly one
request and returns the 500 error dictionary built from the response body,
not the exhausted-retries dictionary. -/
theorem run_sync_for_source_500_counterexample :
    (run_sync_for_source "asana" allFiveHundred "tb").1 =
      [("status", PyVal.str "error"), ("error", PyVal.str "boom"),
       ("stacktrace", PyVal.str "backend trace"), ("status_code", PyVal.nat 500)] ∧
    (run_sync_for_source "asana" allFiveHundred "tb").1 ≠ maxRetriesDict ∧
    (run_sync_for_source "asana" allFiveHundred "tb").2.1 = 1 := by
  refine ⟨rfl, ?_, rfl⟩
  decide

/-- C1 amended: when every attempt fails with an HTTP 5xx status other than
500, the request is issued `MAX_RETRIES = 3` times, a 2-second sleep follows
each failed attempt, and the call returns the exhausted-retries error
dictionary.  (A 500 response is returned immediately without retrying.) -/
theorem run_sync_for_source_5xx_exhausts (short_name tb : String)
    (env : Nat → HttpOutcome)
    (h : ∀ i, i < MAX_RETRIES → ∃ code estr body,
        env i = .statusError code estr body ∧ 500 < code ∧ code ≤ 599) :
    run_sync_for_source short_name env tb =
      (maxRetriesDict, MAX_RETRIES, [2, 2, 2]) := by
  have hr : ∀ j, j < MAX_RETRIES → retryable (env (0 + j)) = true := by
    intro j hj
    obtain ⟨code, estr, body, heq, hgt, hle⟩ := h (0 + j) (by simpa using hj)
    rw [heq]
    simp [retryable]
    omega
  have hloop := runSyncLoop_all_retry short_name env MAX_RETRIES 0 hr
  unfold run_sync_for_source
  rw [hloop]
  rfl

/-- A sync environment in which every attempt fails with HTTP 503. -/
def allFiveOhThree : Nat → HttpOutcome :=
  fun _ => .statusError 503 "Service Unavailable" (.error "no json body")

/-- Witness for the amended C1 at a concrete all-503 environment. -/
theorem run_sync_for_source_5xx_exhausts_witness :
    run_sync_for_source "asana" allFiveOhThree "tb" =
      (maxRetriesDict, MAX_RETRIES, [2, 2, 2]) :=
  run_sync_for_source_5xx_exhausts "asana" "tb" allFiveOhThree
    (fun i _ => ⟨503, "Service Unavailable", .error "no json body", rfl, by omega, by omega⟩)

/-- C8: `run_sync_for_source` always returns a dictionary; in particular,
when the sync-trigger endpoint responds 404 (after any number of retryable
failures), the `HTTPException` raised inside the loop is caught by the
function's own outer `except Exception` handler, which converts it into the
dictionary with status "error", error `str(e) = "404: Source <name> not
found"`, and the stacktrace from `traceback.format_exc()`. -/
theorem run_sync_for_source_404_caught (short_name tb estr : String)
    (env : Nat → HttpOutcome) (body : Except String ErrorBody) (i : Nat)
    (hi : i < MAX_RETRIES)
    (hpre : ∀ j, j < i → retryable (env j) = true)
    (h404 : env i = .statusError 404 estr body) :
    (run_sync_for_source short_name env tb).1 =
      [("status", PyVal.str "error"),
       ("error", PyVal.str ("404: Source " ++ short_name ++ " not found")),
       ("stacktrace", PyVal.str tb)] := by
  have hi3 : i < 3 := hi
  interval_cases i
  · have hstep : syncAttemptStep short_name (env 0) =
        .raiseExc ("404: Source " ++ short_name ++ " not found") := by
      rw [h404]; simp [syncAttemptStep]
    simp [run_sync_for_source, MAX_RETRIES, runSyncLoop, hstep]
  · have h0 := syncAttemptStep_retry short_name (hpre 0 (by omega))
    have hstep : syncAttemptStep short_name (env 1) =
        .raiseExc ("404: Source " ++ short_name ++ " not found") := by
      rw [h404]; simp [syncAttemptStep]
    simp [run_sync_for_source, MAX_RETRIES, runSyncLoop, h0, hstep]
  · have h0 := syncAttemptStep_retry short_name (hpre 0 (by omega))
    have h1 := syncAttemptStep_retry short_name (hpre 1 (by omega))
    have hstep : syncAttemptStep short_name (env 2) =
        .raiseExc ("404: Source " ++ short_name ++ " not found") := by
      rw [h404]; simp [syncAttemptStep]
    simp [run_sync_for_source, MAX_RETRIES, runSyncLoop, h0, h1, hstep]

/-- Witness for C8 at a concrete environment whose first attempt responds
404. -/
theorem run_sync_for_source_404_caught_witness :
    (run_sync_for_source "asana"
        (fun _ => HttpOutcome.statusError 404 "Client error" (.error "no body")) "tb0").1 =
      [("status", PyVal.str "error"),
       ("error", PyVal.str ("404: Source " ++ "asana" ++ " not found")),
       ("stacktrace", PyVal.str "tb0")] :=
  run_sync_for_source_404_caught "asana" "tb0" "Client error"
    (fun _ => HttpOutcome.statusError 404 "Client error" (.error "no body"))
    (.error "no body") 0 (by decide) (fun j hj => absurd hj (by omega)) rfl

/-- C3: a 404 from the status endpoint yields the pending dictionary, with
status "pending" and connection_found False, not an error dictionary. -/
theorem check_connection_status_404_pending (short_name estr : String)
    (body : Except String ErrorBody) :
    check_connection_status short_name (.statusError 404 estr body) =
      [("status", .str "pending"), ("connection_found", .bool false),
       ("message", .str ("No connection found for source: " ++ short_name))] := by
  simp [check_connection_status]

/-- Whether a dictionary has a given key (`"status_code" in result`). -/
def hasKey (d : PyDict) (k : String) : Bool := (List.lookup k d).isSome

/-- The success shape of a `check_connection_status` result: status
"success", carrying the response data. -/
def isSuccessShape (d : PyDict) : Bool :=
  (List.lookup "status" d == some (PyVal.str "success")) && hasKey d "data"

/-- The not-found shape of a `check_connection_status` result: status
"pending", with a message. -/
def isPendingShape (d : PyDict) : Bool :=
  (List.lookup "status" d == some (PyVal.str "pending")) && hasKey d "message"

/-- The server/HTTP-error shape of a `check_connection_status` result:
status "error", with a "status_code" key. -/
def isServerErrorShape (d : PyDict) : Bool :=
  (List.lookup "status" d == some (PyVal.str "error")) && hasKey d "status_code"

/-- The generic-failure shape of a `check_connection_status` result: status
"error", without a "status_code" key. -/
def isGenericErrorShape (d : PyDict) : Bool :=
  (List.lookup "status" d == some (PyVal.str "error")) && !(hasKey d "status_code")

/-- C4: every result of `check_connection_status` has exactly one of the
four shapes: success (with the response data), not-found/pending (with a
message), server error (status "error" with a "status_code" key), or
generic failure (status "error" without a "status_code" key). -/
theorem check_connection_status_shape_cases (short_name : String) (o : HttpOutcome) :
    (isSuccessShape (check_connection_status short_name o) = true ∧
     isPendingShape (check_connection_status short_name o) = false ∧
     isServerErrorShape (check_connection_status short_name o) = false ∧
     isGenericErrorShape (check_connection_status short_name o) = false) ∨
    (isSuccessShape (check_connection_status short_name o) = false ∧
     isPendingShape (check_connection_status short_name o) = true ∧
     isServerErrorShape (check_connection_status short_name o) = false ∧
     isGenericErrorShape (check_connection_status short_name o) = false) ∨
    (isSuccessShape (check_connection_status short_name o) = false ∧
     isPendingShape (check_connection_status short_name o) = false ∧
     isServerErrorShape (check_connection_status short_name o) = true ∧
     isGenericErrorShape (check_connection_status short_name o) = false) ∨
    (isSuccessShape (check_connection_status short_name o) = false ∧
     isPendingShape (check_connection_status short_name o) = false ∧
     isServerErrorShape (check_connection_status short_name o) = false ∧
     isGenericErrorShape (check_connection_status short_name o) = true) := by
  cases o with
  | ok data =>
      left
      simp [check_connection_status, isSuccessShape, isPendingShape, isServerErrorShape,
        isGenericErrorShape, hasKey, List.lookup]
  | statusError code estr body =>
      by_cases h : code = 404
      · right; left
        simp [check_connection_status, h, isSuccessShape, isPendingShape, isServerErrorShape,
          isGenericErrorShape, hasKey, List.lookup]
      · right; right; left
        simp [check_connection_status, h, isSuccessShape, isPendingShape, isServerErrorShape,
          isGenericErrorShape, hasKey, List.lookup]
  | exn estr =>
      right; right; right
      simp [check_connection_status, isSuccessShape, isPendingShape, isServerErrorShape,
        isGenericErrorShape, hasKey, List.lookup]

/-- C5: `run_sync` issues the sync-trigger request only after the initial
connection check returns success with a connection found; whenever that
check does not succeed, it returns the no-connection error dictionary
having issued zero sync-trigger requests. -/
lemma runSyncLoop_attempts_pos (short_name : String) (env : Nat → HttpOutcome) :
    ∀ fuel i, 1 ≤ fuel → 1 ≤ (runSyncLoop short_name env i fuel).2.1 := by
  intro fuel i hf
  match fuel, hf with
  | fuel + 1, _ =>
      simp only [runSyncLoop]
      cases syncAttemptStep short_name (env i) with
      | ret d => simp
      | raiseExc msg => simp
      | retry =>
          cases hrec : runSyncLoop short_name env (i + 1) fuel with
          | mk res rest => simp

lemma run_sync_for_source_attempts_pos (short_name tb : String) (env : Nat → HttpOutcome) :
    1 ≤ (run_sync_for_source short_name env tb).2.1 := by
  have h1 := runSyncLoop_attempts_pos short_name env MAX_RETRIES 0 (by decide)
  unfold run_sync_for_source
  cases hrec : runSyncLoop short_name env 0 MAX_RETRIES with
  | mk res rest =>
      rw [hrec] at h1
      cases res with
      | ok d => simpa using h1
      | error msg => simpa using h1

theorem run_sync_gates_on_connection (short_name tb : String) (connOutcome : HttpOutcome)
    (env : Nat → HttpOutcome) :
    (isSuccessFound (check_connection_status short_name connOutcome) = true ∧
      run_sync short_name connOutcome env tb =
        ((run_sync_for_source short_name env tb).1,
         (run_sync_for_source short_name env tb).2.1) ∧
      1 ≤ (run_sync short_name connOutcome env tb).2) ∨
    (isSuccessFound (check_connection_status short_name connOutcome) = false ∧
      run_sync short_name connOutcome env tb = (noConnectionDict short_name, 0)) := by
  by_cases h : isSuccessFound (check_connection_status short_name connOutcome) = true
  · left
    have hcase : run_sync short_name connOutcome env tb =
        ((run_sync_for_source short_name env tb).1,
         (run_sync_for_source short_name env tb).2.1) := by
      simp only [isSuccessFound, Bool.and_eq_true] at h
      simp only [run_sync, h.1, h.2]
      cases hrs : run_sync_for_source short_name env tb with
      | mk d rest => simp
    refine ⟨h, hcase, ?_⟩
    rw [hcase]
    exact run_sync_for_source_attempts_pos short_name tb env
  · right
    have h' : isSuccessFound (check_connection_status short_name connOutcome) = false :=
      Bool.eq_false_iff.mpr h
    refine ⟨h', ?_⟩
    simp only [isSuccessFound, Bool.and_eq_true] at h'
    simp only [run_sync]
    rw [if_pos]
    simp only [Bool.or_eq_true, Bool.not_eq_true']
    by_cases hs : (List.lookup "status" (check_connection_status short_name connOutcome) ==
        some (PyVal.str "success")) = true
    · right
      cases hcf : (match List.lookup "connection_found"
          (check_connection_status short_name connOutcome) with
        | some v => truthy v
        | Option.none => false) with
      | true =>
          exfalso
          have : isSuccessFound (check_connection_status short_name connOutcome) = true := by
            simp only [isSuccessFound, Bool.and_eq_true]
            exact ⟨hs, hcf⟩
          exact h this
      | false => rfl
    · left; exact Bool.eq_false_iff.mpr hs

/-- Elapsed whole seconds at the loop test before the `j`-th poll of
`check_connection`: each earlier poll consumed its request duration plus the
fixed 5-second sleep. -/
def elapsedAfter (durs : Nat → Nat) : Nat → Nat
  | 0 => 0
  | j + 1 => elapsedAfter durs j + durs j + CONNECTION_CHECK_INTERVAL

/-- The `j`-th poll of `check_connection` neither succeeds with a connection
found nor reports an error carrying a non-404 status code, so the loop
sleeps and polls again. -/
def pollNoExit (short_name : String) (polls : Nat → HttpOutcome) (j : Nat) : Prop :=
  isSuccessFound (check_connection_status short_name (polls j)) = false ∧
  isErrorExit (check_connection_status short_name (polls j)) = false

lemma checkConnLoop_spec (short_name : String) (polls : Nat → HttpOutcome)
    (durs : Nat → Nat) :
    ∀ fuel i elapsed, elapsed = elapsedAfter durs i →
      CONNECTION_CHECK_TIMEOUT ≤ elapsed + CONNECTION_CHECK_INTERVAL * fuel →
      (1 ≤ (checkConnLoop short_name polls durs i elapsed fuel).2 ∧
        (checkConnLoop short_name polls durs i elapsed fuel).1 =
          check_connection_status short_name
            (polls (i + (checkConnLoop short_name polls durs i elapsed fuel).2 - 1)) ∧
        (isSuccessFound (checkConnLoop short_name polls durs i elapsed fuel).1 = true ∨
         isErrorExit (checkConnLoop short_name polls durs i elapsed fuel).1 = true) ∧
        elapsedAfter durs (i + (checkConnLoop short_name polls durs i elapsed fuel).2 - 1) <
          CONNECTION_CHECK_TIMEOUT ∧
        (∀ j, i ≤ j →
          j < i + (checkConnLoop short_name polls durs i elapsed fuel).2 - 1 →
          pollNoExit short_name polls j)) ∨
      ((checkConnLoop short_name polls durs i elapsed fuel).1 = timeoutDict short_name ∧
        CONNECTION_CHECK_TIMEOUT ≤
          elapsedAfter durs (i + (checkConnLoop short_name polls durs i elapsed fuel).2) ∧
        (∀ j, i ≤ j → j < i + (checkConnLoop short_name polls durs i elapsed fuel).2 →
          pollNoExit short_name polls j)) := by
  intro fuel
  induction fuel with
  | zero =>
      intro i elapsed h1 h2
      right
      refine ⟨rfl, ?_, ?_⟩
      · simpa [checkConnLoop, h1] using h2
      · intro j hij hj
        simp [checkConnLoop] at hj
        omega
  | succ fuel ih =>
      intro i elapsed h1 h2
      by_cases hlt : elapsed < CONNECTION_CHECK_TIMEOUT
      · by_cases hsf : isSuccessFound (check_connection_status short_name (polls i)) = true
        · left
          have hout : checkConnLoop short_name polls durs i elapsed (fuel + 1) =
              (check_connection_status short_name (polls i), 1) := by
            simp [checkConnLoop, hlt, hsf]
          rw [hout]
          refine ⟨le_refl 1, by simp, Or.inl (by simpa using hsf), ?_, ?_⟩
          · simpa [h1] using hlt
          · intro j hij hj; omega
        · by_cases hee : isErrorExit (check_connection_status short_name (polls i)) = true
          · left
            have hout : checkConnLoop short_name polls durs i elapsed (fuel + 1) =
                (check_connection_status short_name (polls i), 1) := by
              simp [checkConnLoop, hlt, hsf, hee]
            rw [hout]
            refine ⟨le_refl 1, by simp, Or.inr (by simpa using hee), ?_, ?_⟩
            · simpa [h1] using hlt
            · intro j hij hj; omega
          · have hnoexit : pollNoExit short_name polls i :=
              ⟨Bool.eq_false_iff.mpr hsf, Bool.eq_false_iff.mpr hee⟩
            have h1' : elapsed + durs i + CONNECTION_CHECK_INTERVAL =
                elapsedAfter durs (i + 1) := by
              simp [elapsedAfter, h1]
            have h2' : CONNECTION_CHECK_TIMEOUT ≤
                (elapsed + durs i + CONNECTION_CHECK_INTERVAL) +
                  CONNECTION_CHECK_INTERVAL * fuel := by
              have : CONNECTION_CHECK_INTERVAL * (fuel + 1) =
                  CONNECTION_CHECK_INTERVAL + CONNECTION_CHECK_INTERVAL * fuel := by ring
              rw [this] at h2
              omega
            have hrec := ih (i + 1) (elapsed + durs i + CONNECTION_CHECK_INTERVAL) h1' h2'
            have hout : checkConnLoop short_name polls durs i elapsed (fuel + 1) =
                ((checkConnLoop short_name polls durs (i + 1)
                    (elapsed + durs i + CONNECTION_CHECK_INTERVAL) fuel).1,
                 (checkConnLoop short_name polls durs (i + 1)
                    (elapsed + durs i + CONNECTION_CHECK_INTERVAL) fuel).2 + 1) := by
              simp only [checkConnLoop, if_pos hlt]
              rw [if_neg (by simp [hsf]), if_neg (by simp [hee])]
            rw [hout]
            rcases hrec with ⟨hn, hres, hexit, hel, hrange⟩ | ⟨hres, hel, hrange⟩
            · left
              set m := (checkConnLoop short_name polls durs (i + 1)
                  (elapsed + durs i + CONNECTION_CHECK_INTERVAL) fuel).2 with hm
              refine ⟨by omega, ?_, hexit, ?_, ?_⟩
              · have : i + (m + 1) - 1 = i + 1 + m - 1 := by omega
                rw [this]; exact hres
              · have : i + (m + 1) - 1 = i + 1 + m - 1 := by omega
                rw [this]; exact hel
              · intro j hij hj
                rcases Nat.eq_or_lt_of_le hij with heq | hgt
                · rw [← heq]; exact hnoexit
                · exact hrange j (by omega) (by omega)
            · right
              set m := (checkConnLoop short_name polls durs (i + 1)
                  (elapsed + durs i + CONNECTION_CHECK_INTERVAL) fuel).2 with hm
              refine ⟨hres, ?_, ?_⟩
              · have : i + (m + 1) = i + 1 + m := by omega
                rw [this]; exact hel
              · intro j hij hj
                rcases Nat.eq_or_lt_of_le hij with heq | hgt
                · rw [← heq]; exact hnoexit
                · exact hrange j (by omega) (by omega)
      · right
        have hout : checkConnLoop short_name polls durs i elapsed (fuel + 1) =
            (timeoutDict short_name, 0) := by
          simp [checkConnLoop, hlt]
        rw [hout]
        refine ⟨rfl, ?_, ?_⟩
        · simpa [h1] using Nat.le_of_not_lt hlt
        · intro j hij hj; omega

/-- C2 amended: `check_connection` polls the status endpoint, sleeping the
fixed 5 seconds after each unsuccessful poll, until a poll reports success
with a connection found, or a poll reports an error carrying a non-404
status code (which is returned immediately), or the 300-second timeout
window elapses; when the window elapses without an exiting poll, it returns
the dictionary with status "timeout" and connection_found False. -/
theorem check_connection_poll_spec (short_name : String) (polls : Nat → HttpOutcome)
    (durs : Nat → Nat) :
    (1 ≤ (check_connection short_name polls durs).2 ∧
      (check_connection short_name polls durs).1 =
        check_connection_status short_name
          (polls ((check_connection short_name polls durs).2 - 1)) ∧
      (isSuccessFound (check_connection short_name polls durs).1 = true ∨
       isErrorExit (check_connection short_name polls durs).1 = true) ∧
      elapsedAfter durs ((check_connection short_name polls durs).2 - 1) <
        CONNECTION_CHECK_TIMEOUT ∧
      (∀ j, j < (check_connection short_name polls durs).2 - 1 →
        pollNoExit short_name polls j)) ∨
    ((check_connection short_name polls durs).1 = timeoutDict short_name ∧
      CONNECTION_CHECK_TIMEOUT ≤
        elapsedAfter durs (check_connection short_name polls durs).2 ∧
      (∀ j, j < (check_connection short_name polls durs).2 →
        pollNoExit short_name polls j)) := by
  have hcc : check_connection short_name polls durs =
      checkConnLoop short_name polls durs 0 0 60 := rfl
  have h := checkConnLoop_spec short_name polls durs 60 0 0 rfl (by decide)
  rw [hcc]
  rcases h with ⟨hn, hres, hexit, hel, hrange⟩ | ⟨hres, hel, hrange⟩
  · left
    exact ⟨hn, by simpa using hres, hexit, by simpa using hel,
      fun j hj => hrange j (Nat.zero_le j) (by omega)⟩
  · right
    exact ⟨hres, by simpa using hel, fun j hj => hrange j (Nat.zero_le j) (by omega)⟩

/-- A polling environment in which every status request fails with HTTP
500. -/
def pollsAll500 : Nat → HttpOutcome :=
  fun _ => .statusError 500 "Internal Server Error" (.error "no body")

/-- C2 counterexample: when the first poll reports a server error with a
non-404 status code, `check_connection` returns that error dictionary after
a single poll, long before the 300-second window elapses, so the run ends
with neither a success-with-connection poll nor the timeout dictionary. -/
theorem check_connection_error_exit_counterexample :
    (check_connection "asana" pollsAll500 (fun _ => 0)).2 = 1 ∧
    (check_connection "asana" pollsAll500 (fun _ => 0)).1 =
      [("status", PyVal.str "error"), ("connection_found", PyVal.bool false),
       ("error", PyVal.str "Internal Server Error"), ("status_code", PyVal.nat 500)] ∧
    isSuccessFound (check_connection "asana" pollsAll500 (fun _ => 0)).1 = false ∧
    (check_connection "asana" pollsAll500 (fun _ => 0)).1 ≠ timeoutDict "asana" := by
  refine ⟨rfl, rfl, rfl, ?_⟩
  decide

/-- The value under the "status" key of a result dictionary. -/
def statusOf (d : PyDict) : Option PyVal := List.lookup "status" d

lemma isSuccessFound_status {r : PyDict} (h : isSuccessFound r = true) :
    statusOf r = some (PyVal.str "success") := by
  simp only [isSuccessFound, Bool.and_eq_true, beq_iff_eq] at h
  exact h.1

lemma isErrorExit_status {r : PyDict} (h : isErrorExit r = true) :
    statusOf r = some (PyVal.str "error") := by
  simp only [isErrorExit, Bool.and_eq_true, beq_iff_eq] at h
  exact h.1

lemma checkConnLoop_status (short_name : String) (polls : Nat → HttpOutcome)
    (durs : Nat → Nat) :
    ∀ fuel i elapsed,
      statusOf (checkConnLoop short_name polls durs i elapsed fuel).1 =
          some (PyVal.str "success") ∨
      statusOf (checkConnLoop short_name polls durs i elapsed fuel).1 =
          some (PyVal.str "error") ∨
      statusOf (checkConnLoop short_name polls durs i elapsed fuel).1 =
          some (PyVal.str "timeout") := by
  intro fuel
  induction fuel with
  | zero =>
      intro i elapsed
      right; right
      simp [checkConnLoop, statusOf, timeoutDict, List.lookup]
  | succ fuel ih =>
      intro i elapsed
      by_cases hlt : elapsed < CONNECTION_CHECK_TIMEOUT
      · by_cases hsf : isSuccessFound (check_connection_status short_name (polls i)) = true
        · have hout : checkConnLoop short_name polls durs i elapsed (fuel + 1) =
              (check_connection_status short_name (polls i), 1) := by
            simp [checkConnLoop, hlt, hsf]
          rw [hout]
          left
          exact isSuccessFound_status hsf
        · by_cases hee : isErrorExit (check_connection_status short_name (polls i)) = true
          · have hout : checkConnLoop short_name polls durs i elapsed (fuel + 1) =
                (check_connection_status short_name (polls i), 1) := by
              simp [checkConnLoop, hlt, hsf, hee]
            rw [hout]
            right; left
            exact isErrorExit_status hee
          · have hout : checkConnLoop short_name polls durs i elapsed (fuel + 1) =
                ((checkConnLoop short_name polls durs (i + 1)
                    (elapsed + durs i + CONNECTION_CHECK_INTERVAL) fuel).1,
                 (checkConnLoop short_name polls durs (i + 1)
                    (elapsed + durs i + CONNECTION_CHECK_INTERVAL) fuel).2 + 1) := by
              simp only [checkConnLoop, if_pos hlt]
              rw [if_neg (by simp [hsf]), if_neg (by simp [hee])]
            rw [hout]
            exact ih (i + 1) (elapsed + durs i + CONNECTION_CHECK_INTERVAL)
      · have hout : checkConnLoop short_name polls durs i elapsed (fuel + 1) =
            (timeoutDict short_name, 0) := by
          simp [checkConnLoop, hlt]
        rw [hout]
        right; right
        simp [statusOf, timeoutDict, List.lookup]

lemma syncAttemptStep_ret_status (short_name : String) (o : HttpOutcome) (d : PyDict)
    (h : syncAttemptStep short_name o = .ret d) :
    statusOf d = some (PyVal.str "success") ∨ statusOf d = some (PyVal.str "error") := by
  cases o with
  | ok data =>
      simp only [syncAttemptStep, SyncStep.ret.injEq] at h
      left
      rw [← h]
      simp [statusOf, List.lookup]
  | statusError code estr body =>
      by_cases h404 : code = 404
      · simp [syncAttemptStep, h404] at h
      · by_cases h500 : code = 500
        · cases body with
          | ok b =>
              simp only [syncAttemptStep, if_neg h404, if_pos h500, SyncStep.ret.injEq] at h
              right
              rw [← h]
              simp [statusOf, List.lookup]
          | error msg => simp [syncAttemptStep, h404, h500] at h
        · simp [syncAttemptStep, h404, h500] at h
  | exn estr => simp [syncAttemptStep] at h

lemma runSyncLoop_status (short_name : String) (env : Nat → HttpOutcome) :
    ∀ fuel i d, (runSyncLoop short_name env i fuel).1 = .ok d →
      statusOf d = some (PyVal.str "success") ∨ statusOf d = some (PyVal.str "error") := by
  intro fuel
  induction fuel with
  | zero =>
      intro i d h
      simp only [runSyncLoop] at h
      right
      obtain rfl : maxRetriesDict = d := by simpa using h
      simp [statusOf, maxRetriesDict, List.lookup]
  | succ fuel ih =>
      intro i d h
      simp only [runSyncLoop] at h
      cases hstep : syncAttemptStep short_name (env i) with
      | ret d0 =>
          rw [hstep] at h
          obtain rfl : d0 = d := by simpa using h
          exact syncAttemptStep_ret_status short_name (env i) _ hstep
      | raiseExc msg =>
          rw [hstep] at h
          simp at h
      | retry =>
          rw [hstep] at h
          cases hrec : runSyncLoop short_name env (i + 1) fuel with
          | mk res rest =>
              rw [hrec] at h
              simp only at h
              exact ih (i + 1) d (by rw [hrec]; exact h)

lemma run_sync_for_source_status (short_name tb : String) (env : Nat → HttpOutcome) :
    statusOf (run_sync_for_source short_name env tb).1 = some (PyVal.str "success") ∨
    statusOf (run_sync_for_source short_name env tb).1 = some (PyVal.str "error") := by
  unfold run_sync_for_source
  cases hrec : runSyncLoop short_name env 0 MAX_RETRIES with
  | mk res rest =>
      cases res with
      | ok d =>
          have := runSyncLoop_status short_name env MAX_RETRIES 0 d (by rw [hrec])
          simpa using this
      | error msg =>
          right
          simp [statusOf, List.lookup]

/-- C6: every dictionary returned by the tools `check_connection` and
`run_sync` has a "status" key whose value is "success", "error", or
"timeout". -/
theorem tools_status_in_range (short_name tb : String) (polls : Nat → HttpOutcome)
    (durs : Nat → Nat) (connOutcome : HttpOutcome) (env : Nat → HttpOutcome) :
    (statusOf (check_connection short_name polls durs).1 = some (PyVal.str "success") ∨
     statusOf (check_connection short_name polls durs).1 = some (PyVal.str "error") ∨
     statusOf (check_connection short_name polls durs).1 = some (PyVal.str "timeout")) ∧
    (statusOf (run_sync short_name connOutcome env tb).1 = some (PyVal.str "success") ∨
     statusOf (run_sync short_name connOutcome env tb).1 = some (PyVal.str "error") ∨
     statusOf (run_sync short_name connOutcome env tb).1 = some (PyVal.str "timeout")) := by
  constructor
  · exact checkConnLoop_status short_name polls durs 60 0 0
  · unfold run_sync
    by_cases hc : (!(List.lookup "status" (check_connection_status short_name connOutcome) ==
          some (PyVal.str "success")) ||
        !(match List.lookup "connection_found"
              (check_connection_status short_name connOutcome) with
          | some v => truthy v
          | Option.none => false)) = true
    · rw [if_pos hc]
      right; left
      simp [statusOf, noConnectionDict, List.lookup]
    · rw [if_neg hc]
      cases hrs : run_sync_for_source short_name env tb with
      | mk d rest =>
          have := run_sync_for_source_status short_name tb env
          rw [hrs] at this
          rcases this with h | h
          · left; simpa using h
          · right; left; simpa using h

/-- Python `str.replace(pat, repl)` specialised to the single-character
patterns used in mdx_generator.py, over the character list of the string:
every occurrence of the character `c` is replaced by `repl`. -/
def replaceChar (c : Char) (repl : List Char) : List Char → List Char
  | [] => []
  | ch :: rest => (if ch = c then repl else [ch]) ++ replaceChar c repl rest

/-- `escape_mdx_special_chars(text)` from mdx_generator.py: a falsy (empty)
string is returned unchanged; otherwise every "<" is replaced by "&lt;" and
then every ">" by "&gt;". -/
def escape_mdx_special_chars (text : String) : String :=
  if text = "" then text
  else ⟨replaceChar '>' "&gt;".data (replaceChar '<' "&lt;".data text.data)⟩

lemma mem_replaceChar {x c : Char} {repl l : List Char}
    (h : x ∈ replaceChar c repl l) : x ∈ repl ∨ (x ∈ l ∧ x ≠ c) := by
  induction l with
  | nil => simp [replaceChar] at h
  | cons ch rest ih =>
      simp only [replaceChar, List.mem_append] at h
      rcases h with h | h
      · by_cases hc : ch = c
        · rw [if_pos hc] at h
          exact Or.inl h
        · rw [if_neg hc] at h
          simp only [List.mem_singleton] at h
          subst h
          exact Or.inr ⟨List.mem_cons_self x rest, hc⟩
      · rcases ih h with h' | ⟨hm, hne⟩
        · exact Or.inl h'
        · exact Or.inr ⟨List.mem_cons_of_mem _ hm, hne⟩

lemma replaceChar_of_not_mem {c : Char} {repl l : List Char} (h : c ∉ l) :
    replaceChar c repl l = l := by
  induction l with
  | nil => rfl
  | cons ch rest ih =>
      simp only [replaceChar]
      rw [if_neg (fun hc => h (by rw [← hc]; exact List.mem_cons_self ch rest))]
      rw [ih (fun hm => h (List.mem_cons_of_mem _ hm))]
      simp

lemma replaceChar_ne_nil {c : Char} {repl l : List Char} (hr : repl ≠ [])
    (hl : l ≠ []) : replaceChar c repl l ≠ [] := by
  cases l with
  | nil => exact absurd rfl hl
  | cons ch rest =>
      simp only [replaceChar]
      by_cases hc : ch = c
      · rw [if_pos hc]
        simp [hr]
      · rw [if_neg hc]
        simp

/-- C9: `escape_mdx_special_chars` is idempotent — applying it twice equals
applying it once — because its output contains no '<' or '>' characters
(and the falsy empty string is returned unchanged). -/
theorem escape_mdx_special_chars_idempotent (s : String) :
    escape_mdx_special_chars (escape_mdx_special_chars s) = escape_mdx_special_chars s ∧
    '<' ∉ (escape_mdx_special_chars s).data ∧
    '>' ∉ (escape_mdx_special_chars s).data := by
  by_cases hs : s = ""
  · subst hs
    refine ⟨rfl, ?_, ?_⟩ <;> simp [escape_mdx_special_chars]
  · have hdata : s.data ≠ [] := by
      intro h
      apply hs
      cases s with
      | mk data =>
          simp only at h
          rw [h]
    have hlt_ne : ("&lt;".data : List Char) ≠ [] := by decide
    have hgt_ne : ("&gt;".data : List Char) ≠ [] := by decide
    have hesc : escape_mdx_special_chars s =
        ⟨replaceChar '>' "&gt;".data (replaceChar '<' "&lt;".data s.data)⟩ := by
      rw [escape_mdx_special_chars, if_neg hs]
    have hLne : replaceChar '>' "&gt;".data (replaceChar '<' "&lt;".data s.data) ≠ [] :=
      replaceChar_ne_nil hgt_ne (replaceChar_ne_nil hlt_ne hdata)
    have hnolt : '<' ∉ replaceChar '>' "&gt;".data (replaceChar '<' "&lt;".data s.data) := by
      intro hmem
      rcases mem_replaceChar hmem with h | ⟨h, _⟩
      · revert h; decide
      · rcases mem_replaceChar h with h' | ⟨_, hne⟩
        · revert h'; decide
        · exact hne rfl
    have hnogt : '>' ∉ replaceChar '>' "&gt;".data (replaceChar '<' "&lt;".data s.data) := by
      intro hmem
      rcases mem_replaceChar hmem with h | ⟨_, hne⟩
      · revert h; decide
      · exact hne rfl
    refine ⟨?_, ?_, ?_⟩
    · rw [hesc]
      have hne2 : (⟨replaceChar '>' "&gt;".data (replaceChar '<' "&lt;".data s.data)⟩ :
          String) ≠ "" := by
        intro h
        exact hLne (congrArg String.data h)
      rw [escape_mdx_special_chars, if_neg hne2]
      rw [show (⟨replaceChar '>' "&gt;".data (replaceChar '<' "&lt;".data s.data)⟩ :
          String).data = replaceChar '>' "&gt;".data (replaceChar '<' "&lt;".data s.data)
          from rfl]
      rw [replaceChar_of_not_mem hnolt, replaceChar_of_not_mem hnogt]
    · rw [hesc]
      exact hnolt
    · rw [hesc]
      exact hnogt

/-- ASCII model of Python `str.title()` as applied to the connector name in
`generate_mdx_content`: an alphabetic character is uppercased when the
previous character is not alphabetic and lowercased otherwise; all other
characters are unchanged. -/
def pyTitle (prevAlpha : Bool) : List Char → List Char
  | [] => []
  | ch :: rest =>
      (if ch.isAlpha then (if prevAlpha then ch.toLower else ch.toUpper) else ch)
        :: pyTitle ch.isAlpha rest

/-- One entry of the `fields` list of an auth config class in
mdx_generator.py: keys "name", "type", "description", "required". -/
structure FieldInfo where
  name : String
  type : String
  description : String
  required : Bool
  deriving DecidableEq

/-- One entry of `auth_configs` in mdx_generator.py: keys "docstring" and
"fields" are always present, "parent_class" optionally. -/
structure AuthInfo where
  docstring : String
  fields : List FieldInfo
  parent_class : Option String
  deriving DecidableEq

/-- One entry of `source_info` in mdx_generator.py: keys "name" and
"docstring" are present; "auth_type" and "auth_config_class" are read with
`.get` and may be absent. -/
structure SourceInfo where
  name : String
  docstring : String
  auth_type : Option String
  auth_config_class : Option String
  deriving DecidableEq

/-- One entry of the `fields` list of an entity class in mdx_generator.py:
keys "name", "type", "description". -/
structure EntityField where
  name : String
  type : String
  description : String
  deriving DecidableEq

/-- One entry of `entity_info` in mdx_generator.py: keys "name",
"docstring", "fields". -/
structure EntityInfo where
  name : String
  docstring : String
  fields : List EntityField
  deriving DecidableEq

/-- The parent-class fallback for a field description in
mdx_generator.py: when the description is "No description" and the auth
info names a parent class present in `auth_configs`, the first parent field
with the same name and a real description supplies the description. -/
def resolveFieldDescription (auth_configs : List (String × AuthInfo))
    (auth_info : AuthInfo) (field : FieldInfo) : String :=
  if field.description = "No description" then
    match auth_info.parent_class with
    | some parent_class =>
        match List.lookup parent_class auth_configs with
        | some parent_info =>
            match parent_info.fields.find?
                (fun pf => pf.name == field.name && pf.description != "No description") with
            | some pf => pf.description
            | Option.none => field.description
        | Option.none => field.description
    | Option.none => field.description
  else field.description

/-- The `<ParamField ...>` block emitted for one auth config field
(literal braces in the output are written with hex escapes). -/
def paramFieldBlock (auth_configs : List (String × AuthInfo)) (auth_info : AuthInfo)
    (field : FieldInfo) : String :=
  "<ParamField\n  name=\"" ++ field.name ++ "\"\n  type=\"" ++ field.type ++
    "\"\n  required=\x7b" ++ (if field.required then "true" else "false") ++
    "\x7d\n>\n  " ++
    escape_mdx_special_chars (resolveFieldDescription auth_configs auth_info field) ++
    "\n</ParamField>\n"

/-- The truthy-and-present test
`if auth_config_class and auth_config_class in auth_configs:` of
mdx_generator.py, returning the class name and its auth info when it
passes. -/
def configuredAuth (auth_configs : List (String × AuthInfo)) (source : SourceInfo) :
    Option (String × AuthInfo) :=
  match source.auth_config_class with
  | some acc =>
      if acc ≠ "" then
        match List.lookup acc auth_configs with
        | some info => some (acc, info)
        | Option.none => Option.none
      else Option.none
  | Option.none => Option.none

/-- The `if auth_config_class ... / elif oauth2 ... / elif none / else`
chain of mdx_generator.py that follows the auth-type line. -/
def authDetails (auth_configs : List (String × AuthInfo)) (source : SourceInfo) : String :=
  match configuredAuth auth_configs source with
  | some (acc, auth_info) =>
      "Authentication configuration class: `" ++ acc ++ "`\n\n" ++
      (if auth_info.docstring ≠ "" then auth_info.docstring ++ "\n\n" else "") ++
      (if auth_info.fields ≠ [] then
        String.join (auth_info.fields.map (paramFieldBlock auth_configs auth_info)) ++ "\n"
       else "")
  | Option.none =>
      if source.auth_type = some "oauth2" ∨ source.auth_type = some "oauth2_with_refresh" ∨
          source.auth_type = some "oauth2_with_refresh_rotating" then
        "You can connect through the Airweave UI, which will guide you through the OAuth flow.\n\n"
      else if source.auth_type = some "none" then
        "This connector does not require authentication.\n\n"
      else
        "Please refer to the Airweave documentation for authentication details.\n\n"

/-- The per-source block of the Configuration section of
mdx_generator.py.  `authTypeDescriptions` stands for the
`AUTH_TYPE_DESCRIPTIONS` mapping imported from the constants module (not
part of the shown source), used with the auth type itself as default. -/
def sourceBlock (authTypeDescriptions : List (String × String))
    (auth_configs : List (String × AuthInfo)) (source : SourceInfo) : String :=
  "\n### " ++ source.name ++ "\n\n" ++ source.docstring ++ "\n\n" ++
  "#### Authentication\n\n" ++
  (match source.auth_type with
   | some t =>
       if t ≠ "" then
         "This connector uses **" ++ (List.lookup t authTypeDescriptions).getD t ++
           "**.\n\n"
       else ""
   | Option.none => "") ++
  authDetails auth_configs source

/-- The fixed header of the generated MDX content, interpolating the display
name. -/
def headerBlock (display_name : String) : String :=
  "<div className=\"connector-header\">\n  <img src=\"icon.svg\" alt=\"" ++ display_name ++
    " logo\" width=\"72\" height=\"72\" className=\"connector-icon\" />\n  <div className=\"connector-info\">\n    <h1>" ++
    display_name ++ "</h1>\n    <p>Connect your " ++ display_name ++
    " data to Airweave</p>\n  </div>\n</div>\n\n## Overview\n\nThe " ++ display_name ++
    " connector allows you to sync data from " ++ display_name ++
    " into Airweave, making it available for search and retrieval by your agents.\n"

/-- The GitHub reference card emitted between the Configuration and
Entities sections. -/
def cardBlock (connector_name display_name : String) : String :=
  "\n<Card\n  title=\"View Source Code\"\n  icon=\"brands github\"\n  href=\"https://github.com/airweave-ai/airweave/tree/main/backend/airweave/platform/sources/" ++
    connector_name ++ ".py\"\n>\n  Explore the " ++ display_name ++
    " connector implementation\n</Card>\n"

/-- One markdown table row for an entity field. -/
def entityRow (field : EntityField) : String :=
  "| " ++ field.name ++ " | " ++ field.type ++ " | " ++
    escape_mdx_special_chars field.description ++ " |\n"

/-- The `<Accordion>` block emitted for one entity class. -/
def entityBlock (entity : EntityInfo) : String :=
  "<Accordion title=\"" ++ entity.name ++ "\">\n\n" ++ entity.docstring ++ "\n\n" ++
  "| Field | Type | Description |\n" ++ "|-------|------|-------------|\n" ++
  String.join (entity.fields.map entityRow) ++ "\n</Accordion>\n"

/-- `generate_mdx_content(connector_name, entity_info, source_info,
auth_configs)` from mdx_generator.py.  `startMarker` and `endMarker` stand
for `CONTENT_START_MARKER` and `CONTENT_END_MARKER` imported from the
constants module (not part of the shown source); the result wraps the
assembled content as
`f"{CONTENT_START_MARKER}\n\n{content}\n\n{CONTENT_END_MARKER}"`. -/
def generate_mdx_content (startMarker endMarker : String)
    (authTypeDescriptions : List (String × String)) (connector_name : String)
    (entity_info : List EntityInfo) (source_info : List SourceInfo)
    (auth_configs : List (String × AuthInfo)) : String :=
  let display_name : String := ⟨pyTitle false (replaceChar '_' [' '] connector_name.data)⟩
  let content := headerBlock display_name
  let content := content ++
    (if source_info ≠ [] then
      "\n## Configuration\n\n" ++
        String.join (source_info.map (sourceBlock authTypeDescriptions auth_configs))
     else "")
  let content := content ++ cardBlock connector_name display_name
  let content := content ++
    (if entity_info ≠ [] then
      "\n## Entities\n\n" ++ "The following data models are available for this connector:\n\n" ++
        String.join (entity_info.map entityBlock)
     else "")
  startMarker ++ "\n\n" ++ content ++ "\n\n" ++ endMarker

lemma string_append_assoc (a b c : String) : a ++ b ++ c = a ++ (b ++ c) := by
  cases a with
  | mk la =>
      cases b with
      | mk lb =>
          cases c with
          | mk lc =>
              show String.mk (la ++ lb ++ lc) = String.mk (la ++ (lb ++ lc))
              rw [List.append_assoc]

lemma wrapMarkers (s e c : String) :
    ∃ mid pre, s ++ "\n\n" ++ c ++ "\n\n" ++ e = s ++ "\n\n" ++ mid ∧
      s ++ "\n\n" ++ c ++ "\n\n" ++ e = pre ++ ("\n\n" ++ e) := by
  refine ⟨c ++ "\n\n" ++ e, s ++ "\n\n" ++ c, ?_, ?_⟩
  · rw [string_append_assoc (s ++ "\n\n") c "\n\n",
      string_append_assoc (s ++ "\n\n") (c ++ "\n\n") e]
  · rw [string_append_assoc (s ++ "\n\n" ++ c) "\n\n" e]

/-- C10: for every combination of markers and inputs, the string returned
by `generate_mdx_content` begins with the start marker followed by two
newlines and ends with two newlines followed by the end marker. -/
theorem generate_mdx_content_markers (startMarker endMarker : String)
    (authTypeDescriptions : List (String × String)) (connector_name : String)
    (entity_info : List EntityInfo) (source_info : List SourceInfo)
    (auth_configs : List (String × AuthInfo)) :
    ∃ mid pre,
      generate_mdx_content startMarker endMarker authTypeDescriptions connector_name
          entity_info source_info auth_configs = startMarker ++ "\n\n" ++ mid ∧
      generate_mdx_content startMarker endMarker authTypeDescriptions connector_name
          entity_info source_info auth_configs = pre ++ ("\n\n" ++ endMarker) := by
  unfold generate_mdx_content
  exact wrapMarkers startMarker endMarker _
